import Mathlib

/-!
Shallow embedding of the playback session controller in
`music-player-tui/music_player.py`, together with theorems checking the
specification's claims about it.

Conventions of the embedding:
* Python values that can arrive from the JSON control channel are modelled by
  `JVal`; a string's float-parse result is carried as data (`Option ℚ`) since
  lexical parsing of numerals is outside the scope of the claims.
* Python floats are modelled as exact rationals; every arithmetic step used by
  the embedded functions (`n / 2` for small integers `n`, `divmod` by 60) is
  exact in IEEE double for the ranges involved, so no rounding is lost.
* Fallible Python code is modelled with `Except PyErr`; an uncaught exception
  is `.error e`.
* Stateful code is modelled by explicit state passing on small state records,
  with a trace of externally visible actions where the claim is about ordering
  of side effects.
-/

/-- Exceptions relevant to the embedded fragments of the program. -/
inductive PyErr
  | typeError
  | valueError
  | jsonDecodeError
deriving Repr, DecidableEq

/-- A JSON value as it appears in Python after `json.loads`: `None`, `bool`,
a number, a string (its emptiness and float-parse result carried as data),
a list or a dict (their emptiness carried as data). -/
inductive JVal
  | jnull
  | jbool (b : Bool)
  | jnum (q : ℚ)
  | jstr (nonempty : Bool) (parse : Option ℚ)
  | jarr (nonempty : Bool)
  | jobj (nonempty : Bool)
deriving Repr, DecidableEq

/-- Python truthiness (`bool(x)`) of a `JVal`: `None` is falsy, `0` is falsy,
empty strings/lists/dicts are falsy. -/
def pyTruthy : JVal → Bool
  | .jnull => false
  | .jbool b => b
  | .jnum q => decide (q ≠ 0)
  | .jstr ne _ => ne
  | .jarr ne => ne
  | .jobj ne => ne

/-- Python `float(x)`: numbers convert, booleans convert to `0`/`1`, strings
convert iff they parse as a numeral (`ValueError` otherwise), `None`, lists
and dicts raise `TypeError`. -/
def pyFloat : JVal → Except PyErr ℚ
  | .jnull => .error .typeError
  | .jbool b => .ok (if b then 1 else 0)
  | .jnum q => .ok q
  | .jstr _ (some q) => .ok q
  | .jstr _ none => .error .valueError
  | .jarr _ => .error .typeError
  | .jobj _ => .error .typeError

/-- Python `int(x)` on a float: truncation toward zero (`Int.div` is
T-division). -/
def ratTrunc (q : ℚ) : Int := Int.tdiv q.num (q.den : Int)

/-- A command sent over the mpv IPC channel (the verbs the program uses). -/
inductive MpvCmd
  | getProperty (name : String)
  | cyclePause
  | seek (off : Int)
deriving Repr, DecidableEq

/-- Outcome of `s.recv(4096)` once a connection succeeded: empty bytes,
bytes that `json.loads` decodes to a value, or bytes it fails to decode. -/
inductive RecvData
  | empty
  | wellFormed (v : JVal)
  | malformed
deriving Repr, DecidableEq

/-- Behaviour of the connect/send/recv interaction with the socket: one of
the exceptions named in the `except` clause of `send_mpv_command`, or a
completed `recv`. -/
inductive ConnStep
  | connRefused
  | timedOut
  | brokenPipe
  | fileNotFound
  | recv (d : RecvData)
deriving Repr, DecidableEq

/-- Model of `send_mpv_command` (music_player.py:172-186): if the socket path does not
exist, return `None`; otherwise connect, send the command and read one
response, returning the decoded response, `None` for empty data, and `None`
for each of `ConnectionRefusedError`, `FileNotFoundError`, `BrokenPipeError`
and `socket.timeout`; any other exception (in particular
`json.JSONDecodeError` from `json.loads`) propagates to the caller. -/
def send_mpv_command (_cmd : MpvCmd) (endpointExists : Bool)
    (conn : ConnStep) : Except PyErr (Option JVal) :=
  if !endpointExists then .ok none
  else
    match conn with
    | .connRefused => .ok none
    | .timedOut => .ok none
    | .brokenPipe => .ok none
    | .fileNotFound => .ok none
    | .recv .empty => .ok none
    | .recv (.wellFormed v) => .ok (some v)
    | .recv .malformed => .error .jsonDecodeError

/-- Python `f"{n:02d}"`: decimal rendering padded on the left with `0` to
width 2 (the sign counts toward the width). -/
def pad2 (n : Int) : String :=
  let s := toString n
  if s.length < 2 then "0" ++ s else s

/-- Python `"c" * n` for a single character: `n` copies, the empty string
when `n` is not positive. -/
def repChar (c : Char) (n : Int) : String :=
  String.mk (List.replicate n.toNat c)

/-- Model of `format_time_str` (music_player.py:232-240): `None` is replaced by `0`,
then `divmod(int(float(seconds)), 60)` renders `MM:SS`; `ValueError` and
`TypeError` from the conversion are caught and yield `"00:00"`.
Python `divmod` is floor division, which agrees with `Int.ediv`/`Int.emod`
for the positive divisor 60. -/
def format_time_str (seconds : JVal) : String :=
  let sec := if seconds = .jnull then .jnum 0 else seconds
  match pyFloat sec with
  | .error _ => "00:00"
  | .ok q =>
    let t := ratTrunc q
    pad2 (Int.ediv t 60) ++ ":" ++ pad2 (Int.emod t 60)

/-- Model of `draw_progress_bar` (music_player.py:243-253): `percent` becomes
`int(float(percent or 0))` (an uncaught exception propagates), the filled
length is `int(width * percent / 100)` with `width = 50` — exact in floats
since `50 * p / 100 = p / 2` — and the bar is `"█" * filled + "░" * (50 -
filled)` wrapped in colour escapes, followed by the integer percent. -/
def draw_progress_bar (percent : JVal) : Except PyErr String :=
  match pyFloat (if pyTruthy percent then percent else .jnum 0) with
  | .error e => .error e
  | .ok q =>
    let p := ratTrunc q
    let filled := Int.tdiv (50 * p) 100
    .ok ("[" ++ "\x1b[1;36m" ++ repChar '█' filled ++ repChar '░' (50 - filled)
      ++ "\x1b[0m" ++ "] " ++ toString p ++ "%")

/-- The status line written when playback status is absent
(music_player.py:269). -/
def loadingLine : String := "\x1b[1;33m" ++ "Loading..." ++ "\x1b[0m"

/-- Model of `update_progress_display` (music_player.py:256-273), given as the text
written to the status line (cursor-positioning escapes around it are not part
of the line's content), or the exception it raises. When
`percent is not None and float(percent or 0) > 0` the bar and the two
formatted times are written, otherwise the loading line; the float conversion
of `percent` is not guarded by any handler here. -/
def update_progress_display (percent pos dur : JVal) : Except PyErr String :=
  if percent ≠ .jnull then
    match pyFloat (if pyTruthy percent then percent else .jnum 0) with
    | .error e => .error e
    | .ok q =>
      if 0 < q then
        match draw_progress_bar percent with
        | .error e => .error e
        | .ok bar =>
          .ok (bar ++ " " ++ "\x1b[1;37m" ++ format_time_str pos ++ " / "
            ++ format_time_str dur ++ "\x1b[0m")
      else .ok loadingLine
  else .ok loadingLine

/-- Supervisor-visible state: liveness of the tracked player handle
(`mpv_process.poll() is None`), the number of live managed player processes,
and existence of the socket endpoint file `MPV_SOCKET`. -/
structure PState where
  procLive : Bool
  liveCount : Nat
  sockExists : Bool
deriving Repr, DecidableEq

/-- Externally visible actions of the supervisor, in the order performed. -/
inductive PAction
  | terminate
  | waitGrace (secs : Nat)
  | kill
  | unlinkSock
  | spawn
  | settle (secs : Nat)
deriving Repr, DecidableEq

/-- The stop sequence shared by `play_song` and `cleanup`
(music_player.py:128-133 and 33-38): if the tracked process is alive,
`terminate()` then `wait(timeout=2)`; when the graceful wait times out
(`gracefulOk = false`), `kill()`. Afterwards the tracked process is dead
either way. -/
def stopProc (gracefulOk : Bool) (s : PState) : PState × List PAction :=
  if s.procLive then
    ({ s with procLive := false, liveCount := s.liveCount - 1 },
      [.terminate, .waitGrace 2] ++ if gracefulOk then [] else [.kill])
  else (s, [])

/-- Model of `play_song` (music_player.py:124-170): stop any live tracked process,
unlink `MPV_SOCKET` if it exists, spawn mpv bound to the socket path and the
current song, then `time.sleep(1)`. The spawned player creates the endpoint
during the settle interval (spec §3, Channel Endpoint), so after the call the
endpoint exists and the tracked handle is live. -/
def play_song (gracefulOk : Bool) (s : PState) : PState × List PAction :=
  let (s1, tr1) := stopProc gracefulOk s
  let (s2, tr2) :=
    if s1.sockExists then ({ s1 with sockExists := false }, [.unlinkSock])
    else (s1, [])
  let s3 := { s2 with procLive := true, liveCount := s2.liveCount + 1, sockExists := true }
  (s3, tr1 ++ tr2 ++ [.spawn, .settle 1])

/-- Model of `cleanup` (music_player.py:30-48): stop the tracked process with the same
graceful/forced sequence, unlink the socket if it exists, restore the
terminal, and `sys.exit(0)`. Returns the final state and the exit status. -/
def cleanup (gracefulOk : Bool) (s : PState) : PState × Nat :=
  let (s1, _) := stopProc gracefulOk s
  let s2 :=
    if s1.sockExists then { s1 with sockExists := false } else s1
  (s2, 0)

/-- The ways the session can end (music_player.py:335-336, 392-393,
405-406): the quit key calls `cleanup()` directly, `SIGINT`/`SIGTERM` run
`signal_handler` which calls `cleanup()`, and any exception escaping the
main loop reaches the `finally` block which calls `cleanup()`. -/
inductive ExitPath
  | quitKey
  | sigInt
  | sigTerm
  | uncaughtError
deriving Repr, DecidableEq

/-- Session teardown as routed by the code: every exit path invokes
`cleanup`. -/
def sessionExit (p : ExitPath) (gracefulOk : Bool) (s : PState) :
    PState × Nat :=
  match p with
  | .quitKey => cleanup gracefulOk s
  | .sigInt => cleanup gracefulOk s
  | .sigTerm => cleanup gracefulOk s
  | .uncaughtError => cleanup gracefulOk s

/-- Session state mutated by the main loop: current folder, ordered song
names, current index, and the full-redraw flag. -/
structure LoopState where
  folder : String
  songs : List String
  idx : Nat
  needsRedraw : Bool
deriving Repr, DecidableEq

/-- Results of the external collaborators consulted while handling a key:
the fzf pick for "choose song" (`None` on cancel), and the folder name and
enumerated songs produced by `select_folder`/`get_songs` for "change
folder". -/
structure Env where
  songPick : Option String
  folderPick : String
  folderSongs : List String
deriving Repr, DecidableEq

/-- Side effects a key press can trigger besides mutating `LoopState`. -/
inductive Effect
  | appendLog (file line : String)
  | flash (msg : String)
  | sendCmd (c : MpvCmd)
  | restart
  | cleanupNow
  | fatalExit
deriving Repr, DecidableEq

/-- The tuple at music_player.py:401: keys that do NOT set the full-redraw
flag after handling. -/
def noRedrawKeys : List Char :=
  ['p', 'P', ' ', 'b', 'B', 'f', 'F', 'l', 'L', 'd', 'D']

/-- Model of `choose_song` (music_player.py:110-121): an empty or cancelled fzf pick
returns no index; a pick found in the list returns its first position
(`list.index`); a pick not in the list hits the caught `ValueError` and also
returns no index. -/
def chooseSongOk (pick : Option String) (names : List String) : Option Nat :=
  match pick with
  | none => none
  | some name =>
    if name ≠ "" ∧ name ∈ names then some (names.indexOf name) else none

/-- The per-song line appended to a preference log
(music_player.py:373, 377): `f"{current_folder}/{songs[i].name}"`. -/
def logLine (s : LoopState) : String :=
  s.folder ++ "/" ++ s.songs.getD s.idx ""

/-- The key dispatch of the main loop (music_player.py:370-402). Each branch
mirrors one `elif`; `play_song` setting `needs_full_redraw = True`
(line 170) is inlined where it is called. The quit branch and a fatal
`get_songs` exit leave the loop before line 401 runs, so the trailing
redraw-flag update is skipped exactly for them. -/
def handleKey (k : Char) (e : Env) (s : LoopState) : LoopState × List Effect :=
  let r : LoopState × List Effect :=
    if k = 'l' ∨ k = 'L' then
      (s, [.appendLog "likes.txt" (logLine s), .flash "Liked!"])
    else if k = 'd' ∨ k = 'D' then
      (s, [.appendLog "dislikes.txt" (logLine s), .flash "Disliked!"])
    else if k = 'n' ∨ k = 'N' then
      ({ s with idx := (s.idx + 1) % s.songs.length, needsRedraw := true }, [.restart])
    else if k = 's' ∨ k = 'S' then
      match chooseSongOk e.songPick s.songs with
      | some i => ({ s with idx := i, needsRedraw := true }, [.restart])
      | none => ({ s with needsRedraw := true }, [])
    else if k = 'c' ∨ k = 'C' then
      if e.folderSongs.isEmpty then (s, [.fatalExit])
      else
        ({ s with folder := e.folderPick, songs := e.folderSongs, idx := 0, needsRedraw := true },
          [.restart])
    else if k = 'q' ∨ k = 'Q' then (s, [.cleanupNow])
    else if k = 'p' ∨ k = 'P' ∨ k = ' ' then (s, [.sendCmd .cyclePause])
    else if k = 'b' ∨ k = 'B' then (s, [.sendCmd (.seek (-5))])
    else if k = 'f' ∨ k = 'F' then (s, [.sendCmd (.seek 5)])
    else (s, [])
  if Effect.cleanupNow ∈ r.2 ∨ Effect.fatalExit ∈ r.2 then r
  else if k ∈ noRedrawKeys then r
  else ({ r.1 with needsRedraw := true }, r.2)

/-- The player-exit branch of the main loop (music_player.py:364-367):
`poll()` returned an exit status, so the index advances circularly and
`play_song` restarts playback (setting the full-redraw flag, line 170). -/
def onPlayerExit (s : LoopState) : LoopState :=
  { s with idx := (s.idx + 1) % s.songs.length, needsRedraw := true }

/-- Session state right after startup (music_player.py:338-342): folder and
songs enumerated, the index drawn by `random.randint(0, len(songs) - 1)`
passed in as `r`, and the initial full redraw pending. -/
def initialState (folder : String) (songs : List String) (r : Nat) : LoopState :=
  { folder := folder, songs := songs, idx := r, needsRedraw := true }

/-- The keys the dispatch at music_player.py:371-399 recognizes. -/
def recognizedKeys : List Char :=
  ['l', 'L', 'd', 'D', 'n', 'N', 's', 'S', 'c', 'C', 'q', 'Q', 'p', 'P', ' ',
    'b', 'B', 'f', 'F']

/-- Helper: the next-key branch in closed form. -/
theorem handleKey_next (e : Env) (s : LoopState) :
    handleKey 'n' e s =
      ({ s with idx := (s.idx + 1) % s.songs.length, needsRedraw := true }, [.restart]) := rfl

/-- Helper: the choose-song branch either keeps the index or moves it to the
first position of a name present in the list. -/
theorem handleKey_chooseSong (e : Env) (s : LoopState) :
    (handleKey 's' e s).1.songs = s.songs ∧
    ((handleKey 's' e s).1.idx = s.idx ∨
      ∃ name, (handleKey 's' e s).1.idx = s.songs.indexOf name ∧ name ∈ s.songs) := by
  rcases hpick : e.songPick with _ | name
  · exact ⟨by simp [handleKey, chooseSongOk, hpick],
      Or.inl (by simp [handleKey, chooseSongOk, hpick])⟩
  · by_cases hin : name ≠ "" ∧ name ∈ s.songs
    · have hc : chooseSongOk e.songPick s.songs = some (s.songs.indexOf name) := by
        simp [chooseSongOk, hpick, hin]
      exact ⟨by simp [handleKey, hc], Or.inr ⟨name, by simp [handleKey, hc], hin.2⟩⟩
    · have hc : chooseSongOk e.songPick s.songs = none := by
        simp only [chooseSongOk, hpick]
        simp [hin]
      exact ⟨by simp [handleKey, hc], Or.inl (by simp [handleKey, hc])⟩

/-- Claim C1: on the next key and on detected player exit, the index
advances to `(i + 1) % len(tracks)`, stays within bounds for non-empty
track lists, and wraps from the last index to 0. -/
theorem c1_circular_advance (e : Env) (s : LoopState) (h : s.songs ≠ []) :
    (handleKey 'n' e s).1.idx = (s.idx + 1) % s.songs.length ∧
    (onPlayerExit s).idx = (s.idx + 1) % s.songs.length ∧
    (handleKey 'n' e s).1.idx < s.songs.length ∧
    (onPlayerExit s).idx < s.songs.length ∧
    (s.idx = s.songs.length - 1 → (handleKey 'n' e s).1.idx = 0) := by
  have hlen : 0 < s.songs.length := List.length_pos.mpr h
  refine ⟨by rw [handleKey_next], rfl, ?_, ?_, ?_⟩
  · rw [handleKey_next]; exact Nat.mod_lt _ hlen
  · exact Nat.mod_lt _ hlen
  · intro hl
    rw [handleKey_next]
    simp only [hl, Nat.sub_add_cancel hlen, Nat.mod_self]

/-- Witness for the claim C1 theorem at the spec's three-track scenario,
starting at the last index. -/
theorem c1_circular_advance_witness :
    ((["a.mp3", "b.mp3", "c.mp3"] : List String) ≠ []) ∧
    ((handleKey 'n' ⟨none, "", []⟩ ⟨"X", ["a.mp3", "b.mp3", "c.mp3"], 2, false⟩).1.idx =
        (2 + 1) % 3 ∧
      (onPlayerExit ⟨"X", ["a.mp3", "b.mp3", "c.mp3"], 2, false⟩).idx = (2 + 1) % 3 ∧
      (handleKey 'n' ⟨none, "", []⟩ ⟨"X", ["a.mp3", "b.mp3", "c.mp3"], 2, false⟩).1.idx < 3 ∧
      (onPlayerExit ⟨"X", ["a.mp3", "b.mp3", "c.mp3"], 2, false⟩).idx < 3 ∧
      (2 = 3 - 1 →
        (handleKey 'n' ⟨none, "", []⟩ ⟨"X", ["a.mp3", "b.mp3", "c.mp3"], 2, false⟩).1.idx = 0)) :=
  ⟨by decide, c1_circular_advance ⟨none, "", []⟩ ⟨"X", ["a.mp3", "b.mp3", "c.mp3"], 2, false⟩
    (by decide)⟩

/-- Claim C2, counterexample: a response that is received but fails JSON
decoding makes `send_mpv_command` raise `json.JSONDecodeError` (not in the
caught exception tuple), so an error from the channel interaction does
propagate to the caller. -/
theorem c2_malformed_response_raises :
    send_mpv_command (.getProperty "percent-pos") true (.recv .malformed) =
      .error .jsonDecodeError := rfl

/-- Claim C2 (amended): a missing endpoint and each caught connection error
(refused, timeout, broken pipe, missing socket file) yield `None`, an empty
response yields `None`, and a well-formed response is returned parsed; only
a response that fails JSON decoding escapes as an exception. -/
theorem c2_send_soft_failure (c : MpvCmd) (conn : ConnStep) (v : JVal) :
    send_mpv_command c false conn = .ok none ∧
    send_mpv_command c true .connRefused = .ok none ∧
    send_mpv_command c true .timedOut = .ok none ∧
    send_mpv_command c true .brokenPipe = .ok none ∧
    send_mpv_command c true .fileNotFound = .ok none ∧
    send_mpv_command c true (.recv .empty) = .ok none ∧
    send_mpv_command c true (.recv (.wellFormed v)) = .ok (some v) := by
  refine ⟨?_, rfl, rfl, rfl, rfl, rfl, rfl⟩
  cases conn <;> rfl

/-- Claim C3: `start(track)` performs, in order: graceful terminate with a
2-second grace period (force kill exactly when the wait times out) if a
managed process is alive, endpoint removal exactly when the endpoint file
exists, then the spawn, then a 1-second settle wait, and nothing else. -/
theorem c3_start_sequence (g : Bool) (s : PState) :
    (play_song g s).2 =
      (if s.procLive then [.terminate, .waitGrace 2] ++ (if g then [] else [.kill]) else [])
        ++ (if s.sockExists then [.unlinkSock] else []) ++ [.spawn, .settle 1] ∧
    (PAction.terminate ∈ (play_song g s).2 ↔ s.procLive = true) ∧
    (PAction.kill ∈ (play_song g s).2 ↔ (s.procLive = true ∧ g = false)) ∧
    (PAction.unlinkSock ∈ (play_song g s).2 ↔ s.sockExists = true) := by
  cases hp : s.procLive <;> cases hs : s.sockExists <;> cases g <;>
    simp [play_song, stopProc, hp, hs]

/-- Claim C4: when the tracked handle accounts for every live managed
process (zero live when the handle is dead, one when it is alive), any two
successive `start` calls leave exactly one live managed process, a live
tracked handle, and an existing endpoint — each single call already does. -/
theorem c4_start_twice_one_process (g1 g2 : Bool) (s : PState)
    (h : s.liveCount = if s.procLive then 1 else 0) :
    (play_song g1 s).1.liveCount = 1 ∧
    (play_song g1 s).1.procLive = true ∧
    (play_song g1 s).1.sockExists = true ∧
    (play_song g2 (play_song g1 s).1).1.liveCount = 1 ∧
    (play_song g2 (play_song g1 s).1).1.procLive = true ∧
    (play_song g2 (play_song g1 s).1).1.sockExists = true := by
  cases hp : s.procLive <;> cases hs : s.sockExists <;> rw [hp] at h <;>
    cases g1 <;> cases g2 <;>
    simp [play_song, stopProc, hp, hs, h]

/-- Witness for the claim C4 theorem on a state with one live process and
an existing endpoint, with a graceful first stop and a timed-out second. -/
theorem c4_start_twice_one_process_witness :
    ((1 : Nat) = if (true : Bool) then 1 else 0) ∧
    ((play_song true ⟨true, 1, true⟩).1.liveCount = 1 ∧
      (play_song true ⟨true, 1, true⟩).1.procLive = true ∧
      (play_song true ⟨true, 1, true⟩).1.sockExists = true ∧
      (play_song false (play_song true ⟨true, 1, true⟩).1).1.liveCount = 1 ∧
      (play_song false (play_song true ⟨true, 1, true⟩).1).1.procLive = true ∧
      (play_song false (play_song true ⟨true, 1, true⟩).1).1.sockExists = true) :=
  ⟨by decide, c4_start_twice_one_process true false ⟨true, 1, true⟩ (by decide)⟩

/-- Claim C5: the bound `0 ≤ index < len(tracks)` holds after the
pseudo-random initial pick (whose result obeys `randint`'s inclusive
contract), after a circular advance from the next key or a player exit,
after a pick through the song chooser, and after a folder change resets the
index, whenever the track list in force is non-empty. -/
theorem c5_index_bound_invariant (e : Env) (s : LoopState) (f : String)
    (songs : List String) (r : Nat)
    (hs : s.songs ≠ []) (hi : s.idx < s.songs.length)
    (hsongs : songs ≠ []) (hr : r ≤ songs.length - 1) :
    (initialState f songs r).idx < (initialState f songs r).songs.length ∧
    (handleKey 'n' e s).1.idx < (handleKey 'n' e s).1.songs.length ∧
    (onPlayerExit s).idx < (onPlayerExit s).songs.length ∧
    (handleKey 's' e s).1.idx < (handleKey 's' e s).1.songs.length ∧
    (e.folderSongs ≠ [] →
      (handleKey 'c' e s).1.idx < (handleKey 'c' e s).1.songs.length) := by
  have hlen : 0 < s.songs.length := List.length_pos.mpr hs
  refine ⟨?_, ?_, ?_, ?_, ?_⟩
  · have : 0 < songs.length := List.length_pos.mpr hsongs
    exact lt_of_le_of_lt hr (Nat.sub_lt this one_pos)
  · rw [handleKey_next]; exact Nat.mod_lt _ hlen
  · exact Nat.mod_lt _ hlen
  · obtain ⟨hsongs', hidx⟩ := handleKey_chooseSong e s
    rw [hsongs']
    rcases hidx with hidx | ⟨name, hidx, hmem⟩
    · rw [hidx]; exact hi
    · rw [hidx]; exact List.indexOf_lt_length.mpr hmem
  · intro hne
    have : handleKey 'c' e s =
        ((⟨e.folderPick, e.folderSongs, 0, true⟩ : LoopState), [.restart]) := by
      simp [handleKey, hne]
    rw [this]
    exact List.length_pos.mpr hne

/-- Witness for the claim C5 theorem: three-track state at index 0, a valid
song pick, a one-track new folder, and a one-track initial enumeration with
pick 0. -/
theorem c5_index_bound_invariant_witness :
    ((["a.mp3", "b.mp3", "c.mp3"] : List String) ≠ []) ∧ (0 : Nat) < 3 ∧
    ((["x.mp3"] : List String) ≠ []) ∧ (0 : Nat) ≤ 1 - 1 ∧
    ((initialState "F" ["x.mp3"] 0).idx < (initialState "F" ["x.mp3"] 0).songs.length ∧
      (handleKey 'n' ⟨some "b.mp3", "G", ["g.mp3"]⟩
          ⟨"X", ["a.mp3", "b.mp3", "c.mp3"], 0, false⟩).1.idx <
        (handleKey 'n' ⟨some "b.mp3", "G", ["g.mp3"]⟩
          ⟨"X", ["a.mp3", "b.mp3", "c.mp3"], 0, false⟩).1.songs.length ∧
      (onPlayerExit ⟨"X", ["a.mp3", "b.mp3", "c.mp3"], 0, false⟩).idx <
        (onPlayerExit ⟨"X", ["a.mp3", "b.mp3", "c.mp3"], 0, false⟩).songs.length ∧
      (handleKey 's' ⟨some "b.mp3", "G", ["g.mp3"]⟩
          ⟨"X", ["a.mp3", "b.mp3", "c.mp3"], 0, false⟩).1.idx <
        (handleKey 's' ⟨some "b.mp3", "G", ["g.mp3"]⟩
          ⟨"X", ["a.mp3", "b.mp3", "c.mp3"], 0, false⟩).1.songs.length ∧
      ((["g.mp3"] : List String) ≠ [] →
        (handleKey 'c' ⟨some "b.mp3", "G", ["g.mp3"]⟩
            ⟨"X", ["a.mp3", "b.mp3", "c.mp3"], 0, false⟩).1.idx <
          (handleKey 'c' ⟨some "b.mp3", "G", ["g.mp3"]⟩
            ⟨"X", ["a.mp3", "b.mp3", "c.mp3"], 0, false⟩).1.songs.length)) :=
  ⟨by decide, by decide, by decide, by decide,
    c5_index_bound_invariant ⟨some "b.mp3", "G", ["g.mp3"]⟩
      ⟨"X", ["a.mp3", "b.mp3", "c.mp3"], 0, false⟩ "F" ["x.mp3"] 0
      (by decide) (by decide) (by decide) (by decide)⟩

/-- Claim C6, counterexample: the unrecognized key `'x'` leaves folder,
track list and index unchanged and produces no effect, but line 401 sets
the full-redraw flag, so a full redraw is triggered on the next tick — the
input is not silently ignored as claimed. -/
theorem c6_unrecognized_key_sets_redraw :
    (handleKey 'x' ⟨none, "", []⟩ ⟨"X", ["a.mp3"], 0, false⟩).2 = [] ∧
    (⟨"X", ["a.mp3"], 0, false⟩ : LoopState).needsRedraw = false ∧
    (handleKey 'x' ⟨none, "", []⟩ ⟨"X", ["a.mp3"], 0, false⟩).1.needsRedraw = true := by
  decide

/-- Claim C6 (amended): an unrecognized key leaves folder, track list and
index unchanged, sends no command, writes no log and shows no flash, but it
does set the full-redraw flag, so the next tick performs a full redraw. -/
theorem c6_unrecognized_key_frame (k : Char) (e : Env) (s : LoopState)
    (h : k ∉ recognizedKeys) :
    handleKey k e s = ({ s with needsRedraw := true }, []) := by
  simp only [recognizedKeys, List.mem_cons, List.not_mem_nil, or_false, not_or] at h
  obtain ⟨h1, h2, h3, h4, h5, h6, h7, h8, h9, h10, h11, h12, h13, h14, h15,
    h16, h17, h18, h19⟩ := h
  simp [handleKey, noRedrawKeys, h1, h2, h3, h4, h5, h6, h7, h8, h9, h10,
    h11, h12, h13, h14, h15, h16, h17, h18, h19]

/-- Witness for the amended claim C6 theorem at the key `'x'`. -/
theorem c6_unrecognized_key_frame_witness :
    ('x' ∉ recognizedKeys) ∧
    handleKey 'x' ⟨none, "", []⟩ ⟨"X", ["a.mp3"], 2, false⟩ =
      ({ (⟨"X", ["a.mp3"], 2, false⟩ : LoopState) with needsRedraw := true }, []) :=
  ⟨by decide, c6_unrecognized_key_frame 'x' ⟨none, "", []⟩ ⟨"X", ["a.mp3"], 2, false⟩
    (by decide)⟩

/-- Claim C7, counterexample: a reported percent of 0 is an available
status (`percent is not None`), yet the renderer writes the loading line,
so "loading" is not shown exactly when the status is unavailable. -/
theorem c7_zero_percent_shows_loading :
    (JVal.jnum 0 ≠ JVal.jnull) ∧
    update_progress_display (.jnum 0) (.jnum 0) (.jnum 100) = .ok loadingLine := by
  exact ⟨by decide, rfl⟩

/-- Claim C7 (amended): the status line shows "loading" when the status is
unavailable or the reported percent is ≤ 0; for a positive percent it shows
the 50-cell proportional bar and the two times as minutes:seconds; the
spec's scenario percent=45, position=90, duration=200 renders 22 of 50
filled cells (≈45%) and `01:30 / 03:20`. -/
theorem c7_status_line_render (qp q : ℚ) (pos dur : JVal)
    (hqp : qp ≤ 0) (hq : 0 < q) :
    update_progress_display .jnull pos dur = .ok loadingLine ∧
    update_progress_display (.jnum qp) pos dur = .ok loadingLine ∧
    update_progress_display (.jnum q) pos dur =
      .ok (("[" ++ "\x1b[1;36m" ++ repChar '█' (Int.tdiv (50 * ratTrunc q) 100)
          ++ repChar '░' (50 - Int.tdiv (50 * ratTrunc q) 100) ++ "\x1b[0m" ++ "] "
          ++ toString (ratTrunc q) ++ "%")
        ++ " " ++ "\x1b[1;37m" ++ format_time_str pos ++ " / "
        ++ format_time_str dur ++ "\x1b[0m") ∧
    update_progress_display (.jnum 45) (.jnum 90) (.jnum 200) =
      .ok (("[" ++ "\x1b[1;36m" ++ repChar '█' 22 ++ repChar '░' 28 ++ "\x1b[0m" ++ "] "
          ++ "45" ++ "%") ++ " " ++ "\x1b[1;37m" ++ "01:30" ++ " / " ++ "03:20"
        ++ "\x1b[0m") := by
  have hne : q ≠ 0 := ne_of_gt hq
  refine ⟨rfl, ?_, ?_, ?_⟩
  · by_cases h0 : qp = 0
    · subst h0; rfl
    · simp [update_progress_display, pyTruthy, pyFloat, h0, not_lt.mpr hqp]
  · simp [update_progress_display, draw_progress_bar, pyTruthy, pyFloat, hne, hq]
  · rfl

/-- Witness for the amended claim C7 theorem at the spec's scenario values
percent=45, position=90, duration=200, with 0 as the non-positive percent. -/
theorem c7_status_line_render_witness :
    ((0 : ℚ) ≤ 0) ∧ ((0 : ℚ) < 45) ∧
    (update_progress_display .jnull (.jnum 90) (.jnum 200) = .ok loadingLine ∧
      update_progress_display (.jnum 0) (.jnum 90) (.jnum 200) = .ok loadingLine ∧
      update_progress_display (.jnum 45) (.jnum 90) (.jnum 200) =
        .ok (("[" ++ "\x1b[1;36m" ++ repChar '█' (Int.tdiv (50 * ratTrunc 45) 100)
            ++ repChar '░' (50 - Int.tdiv (50 * ratTrunc 45) 100) ++ "\x1b[0m" ++ "] "
            ++ toString (ratTrunc 45) ++ "%")
          ++ " " ++ "\x1b[1;37m" ++ format_time_str (.jnum 90) ++ " / "
          ++ format_time_str (.jnum 200) ++ "\x1b[0m") ∧
      update_progress_display (.jnum 45) (.jnum 90) (.jnum 200) =
        .ok (("[" ++ "\x1b[1;36m" ++ repChar '█' 22 ++ repChar '░' 28 ++ "\x1b[0m" ++ "] "
            ++ "45" ++ "%") ++ " " ++ "\x1b[1;37m" ++ "01:30" ++ " / " ++ "03:20"
          ++ "\x1b[0m")) :=
  ⟨by decide, by decide,
    c7_status_line_render 0 45 (.jnum 90) (.jnum 200) (by decide) (by decide)⟩

/-- Claim C8: a like or dislike key appends exactly one `folder/track-name`
line for the current track to the corresponding preference log, shows only
a transient flash, and leaves the whole session state — including the
full-redraw flag — unchanged. -/
theorem c8_like_dislike_frame (k : Char) (e : Env) (s : LoopState)
    (hk : k = 'l' ∨ k = 'L' ∨ k = 'd' ∨ k = 'D') (hi : s.idx < s.songs.length) :
    (handleKey k e s).1 = s ∧
    (handleKey k e s).2 =
      [Effect.appendLog (if k = 'l' ∨ k = 'L' then "likes.txt" else "dislikes.txt")
        (logLine s),
       Effect.flash (if k = 'l' ∨ k = 'L' then "Liked!" else "Disliked!")] ∧
    logLine s = s.folder ++ "/" ++ s.songs.get ⟨s.idx, hi⟩ ∧
    ((handleKey k e s).2.filter
      (fun ef => match ef with | .appendLog _ _ => true | _ => false)).length = 1 ∧
    (handleKey k e s).1.needsRedraw = s.needsRedraw := by
  have hlog : logLine s = s.folder ++ "/" ++ s.songs.get ⟨s.idx, hi⟩ := by
    unfold logLine
    rw [List.getD_eq_getElem?_getD, List.getElem?_eq_getElem hi]
    rfl
  rcases hk with rfl | rfl | rfl | rfl <;>
    exact ⟨rfl, rfl, hlog, rfl, rfl⟩

/-- Witness for the claim C8 theorem at the spec's scenario: "like" pressed
for folder "X", track "y.mp3". -/
theorem c8_like_dislike_frame_witness :
    (('l' : Char) = 'l' ∨ ('l' : Char) = 'L' ∨ ('l' : Char) = 'd' ∨ ('l' : Char) = 'D') ∧
    (0 : Nat) < 1 ∧
    ((handleKey 'l' ⟨none, "", []⟩ ⟨"X", ["y.mp3"], 0, false⟩).1 =
        (⟨"X", ["y.mp3"], 0, false⟩ : LoopState) ∧
      (handleKey 'l' ⟨none, "", []⟩ ⟨"X", ["y.mp3"], 0, false⟩).2 =
        [Effect.appendLog
          (if ('l' : Char) = 'l' ∨ ('l' : Char) = 'L' then "likes.txt" else "dislikes.txt")
          (logLine ⟨"X", ["y.mp3"], 0, false⟩),
         Effect.flash (if ('l' : Char) = 'l' ∨ ('l' : Char) = 'L' then "Liked!" else "Disliked!")] ∧
      logLine ⟨"X", ["y.mp3"], 0, false⟩ =
        "X" ++ "/" ++ (["y.mp3"] : List String).get ⟨0, by decide⟩ ∧
      ((handleKey 'l' ⟨none, "", []⟩ ⟨"X", ["y.mp3"], 0, false⟩).2.filter
        (fun ef => match ef with | .appendLog _ _ => true | _ => false)).length = 1 ∧
      (handleKey 'l' ⟨none, "", []⟩ ⟨"X", ["y.mp3"], 0, false⟩).1.needsRedraw =
        (⟨"X", ["y.mp3"], 0, false⟩ : LoopState).needsRedraw) :=
  ⟨Or.inl rfl, by decide,
    c8_like_dislike_frame 'l' ⟨none, "", []⟩ ⟨"X", ["y.mp3"], 0, false⟩
      (Or.inl rfl) (by decide)⟩

/-- Claim C9: every exit path (quit key, SIGINT, SIGTERM, uncaught error)
goes through the single `cleanup` routine, after which the endpoint file
does not exist, the process handle reports not-alive, and the process exit
status is 0 — in particular on normal quit. -/
theorem c9_cleanup_every_exit_path (p : ExitPath) (g : Bool) (s : PState) :
    sessionExit p g s = cleanup g s ∧
    (sessionExit p g s).1.sockExists = false ∧
    (sessionExit p g s).1.procLive = false ∧
    (sessionExit p g s).2 = 0 := by
  cases p <;> cases hp : s.procLive <;> cases hs : s.sockExists <;> cases g <;>
    simp [sessionExit, cleanup, stopProc, hp, hs]

/-- Claim C10, counterexample: a channel response whose percent value is a
non-empty string that does not parse as a number makes the renderer raise
`ValueError` from the unguarded `float()` call, so rendering does not
tolerate every channel response. -/
theorem c10_string_percent_raises :
    update_progress_display (.jstr true none) (.jnum 0) (.jnum 0) =
      .error .valueError := rfl

/-- Claim C10 (amended): the time formatter is total — `None` and every
unparseable value yield `"00:00"`, numeric values yield minutes:seconds —
and the bar builder treats a `None` percent as 0; rendering never raises
when the percent is `None` or numeric, though (per the counterexample) a
non-numeric string percent does raise. -/
theorem c10_formatters_total (q : ℚ) (b : Bool) (pos dur : JVal) :
    format_time_str .jnull = "00:00" ∧
    format_time_str (.jstr b none) = "00:00" ∧
    format_time_str (.jarr b) = "00:00" ∧
    format_time_str (.jnum q) =
      pad2 (Int.ediv (ratTrunc q) 60) ++ ":" ++ pad2 (Int.emod (ratTrunc q) 60) ∧
    draw_progress_bar .jnull =
      .ok ("[" ++ "\x1b[1;36m" ++ repChar '█' 0 ++ repChar '░' 50 ++ "\x1b[0m" ++ "] "
        ++ "0" ++ "%") ∧
    (∃ l, update_progress_display .jnull pos dur = .ok l) ∧
    (∃ l, update_progress_display (.jnum q) pos dur = .ok l) := by
  refine ⟨rfl, by cases b <;> rfl, by cases b <;> rfl, ?_, rfl, ⟨loadingLine, rfl⟩, ?_⟩
  · simp [format_time_str, pyFloat]
  · by_cases h0 : q = 0
    · subst h0; exact ⟨loadingLine, rfl⟩
    · by_cases hpos : 0 < q
      · refine ⟨("[" ++ "\x1b[1;36m" ++ repChar '█' (Int.tdiv (50 * ratTrunc q) 100)
            ++ repChar '░' (50 - Int.tdiv (50 * ratTrunc q) 100) ++ "\x1b[0m" ++ "] "
            ++ toString (ratTrunc q) ++ "%")
          ++ " " ++ "\x1b[1;37m" ++ format_time_str pos ++ " / "
          ++ format_time_str dur ++ "\x1b[0m", ?_⟩
        simp [update_progress_display, draw_progress_bar, pyTruthy, pyFloat, h0, hpos]
      · exact ⟨loadingLine,
          by simp [update_progress_display, pyTruthy, pyFloat, h0, hpos]⟩
